import Mathlib

/-!
Shallow embedding of the execution & deduplication engine of the
`scraper-cr` repository (Django/Celery scraping manager).

Sources embedded here:
 - `scraping_manager/apps/common/utils.py`   (`generate_hash`)
 - `scraping_manager/apps/scraping/models.py` (`ScrapingGroup`, `ScrapingTask`,
   `TaskRun`, `ScrapedItem` field layout)
 - `scraping_manager/apps/scraping/executors.py` (`TaskExecutor.execute_task`,
   `TaskExecutor.run_in_container`)
 - `scraping_manager/apps/scraping/tasks.py` (`run_scraping_task`,
   `run_scraping_group`, `send_group_completion_email`, `test_scraping_task`)
 - `apps/tasks/services/scraper_service.py` (`StagehandScraperService.validate_code`)
 - `apps/tasks/tasks.py` (`execute_scraper_task`)

Modelling conventions:
 - Database rows are explicit Lean values threaded through the functions;
   a Django `.save()` is modelled as a full-object write of the in-memory
   instance (Django writes every column when `save()` is called without
   `update_fields`).
 - Timestamps (`timezone.now()`) are `Nat` parameters supplied by the caller.
 - External effects (the Docker container, the regex/JSON parse of its logs,
   database errors) are inputs: an event/fail-point value says what the outside
   world did, and the definitions reproduce the Python control flow on it.
 - Python exceptions are `Except String`: `.error msg` is an exception with
   text `msg` propagating to the caller.
 - JSON scalars are the inductive `JValue`; `avg_execution_time` (a Python
   float used only through `(a + b) / 2`) is modelled as `Rat`.
-/

/-- JSON scalar values as they appear in item payload fields. -/
inductive JValue where
  | str (s : String)
  | num (n : Int)
  | bool (b : Bool)
  | null
deriving DecidableEq, Repr

/-- One hex digit, lower case, as produced by Python hex formatting. -/
def hexDigit (n : Nat) : Char :=
  if n < 10 then Char.ofNat (48 + n) else Char.ofNat (87 + n % 16)

/-- Fixed-width lower-case hex rendering of `n` (width `w` digits). -/
def hexFixed (w n : Nat) : String :=
  String.mk ((List.range w).map (fun i => hexDigit (n / 16 ^ (w - 1 - i) % 16)))

/-- Escape one character the way `json.dumps` (default `ensure_ascii=True`)
does: the short escapes for quote, backslash and common control characters,
`\u00XX` for other control characters, `\uXXXX` (with surrogate pairs above
the BMP) for non-ASCII. -/
def jsonEscapeChar (c : Char) : String :=
  if c = '"' then "\\\""
  else if c = '\\' then "\\\\"
  else if c = '\n' then "\\n"
  else if c = '\r' then "\\r"
  else if c = '\t' then "\\t"
  else if c.toNat = 8 then "\\b"
  else if c.toNat = 12 then "\\f"
  else if c.toNat < 32 ∨ c.toNat > 126 then
    if c.toNat < 65536 then "\\u" ++ hexFixed 4 c.toNat
    else
      let v := c.toNat - 65536
      "\\u" ++ hexFixed 4 (55296 + v / 1024) ++ "\\u" ++ hexFixed 4 (56320 + v % 1024)
  else String.singleton c

/-- `json.dumps` rendering of a string literal. -/
def jsonDumpString (s : String) : String :=
  "\"" ++ String.join (s.toList.map jsonEscapeChar) ++ "\""

/-- `json.dumps` rendering of a scalar value. -/
def jsonDumpValue : JValue → String
  | .str s => jsonDumpString s
  | .num n => toString n
  | .bool true => "true"
  | .bool false => "false"
  | .null => "null"

/-- `json.dumps` rendering of a dict given its entries in key order
(default separators: `", "` and `": "`). -/
def jsonDumpDict (d : List (String × JValue)) : String :=
  "\x7b" ++ String.intercalate ", "
      (d.map (fun p => jsonDumpString p.1 ++ ": " ++ jsonDumpValue p.2)) ++ "\x7d"

/-- UTF-8 bytes of one character (Python `str.encode()`). -/
def utf8Bytes (c : Char) : List Nat :=
  let n := c.toNat
  if n < 128 then [n]
  else if n < 2048 then [192 ||| n >>> 6, 128 ||| n &&& 63]
  else if n < 65536 then
    [224 ||| n >>> 12, 128 ||| (n >>> 6) &&& 63, 128 ||| n &&& 63]
  else
    [240 ||| n >>> 18, 128 ||| (n >>> 12) &&& 63, 128 ||| (n >>> 6) &&& 63,
     128 ||| n &&& 63]

/-- UTF-8 encoding of a string as a byte list. -/
def strBytes (s : String) : List Nat :=
  (s.toList.map utf8Bytes).flatten

/-! ### SHA-256 (`hashlib.sha256`), 32-bit words as `Nat` mod `2 ^ 32` -/

/-- Truncate to a 32-bit word. -/
def w32 (n : Nat) : Nat := n % 4294967296

/-- Right rotation of a 32-bit word. -/
def rotr32 (x n : Nat) : Nat := w32 (x >>> n ||| x <<< (32 - n))

/-- Bitwise complement of a 32-bit word. -/
def not32 (x : Nat) : Nat := 4294967295 ^^^ x

/-- The 64 SHA-256 round constants, in decimal. -/
def sha256K : List Nat :=
  [1116352408, 1899447441, 3049323471, 3921009573, 961987163,
   1508970993, 2453635748, 2870763221, 3624381080, 310598401,
   607225278, 1426881987, 1925078388, 2162078206, 2614888103,
   3248222580, 3835390401, 4022224774, 264347078, 604807628,
   770255983, 1249150122, 1555081692, 1996064986, 2554220882,
   2821834349, 2952996808, 3210313671, 3336571891, 3584528711,
   113926993, 338241895, 666307205, 773529912, 1294757372,
   1396182291, 1695183700, 1986661051, 2177026350, 2456956037,
   2730485921, 2820302411, 3259730800, 3345764771, 3516065817,
   3600352804, 4094571909, 275423344, 430227734, 506948616,
   659060556, 883997877, 958139571, 1322822218, 1537002063,
   1747873779, 1955562222, 2024104815, 2227730452, 2361852424,
   2428436474, 2756734187, 3204031479, 3329325298]

/-- The eight SHA-256 initial hash values, in decimal. -/
def sha256H0 : List Nat :=
  [1779033703, 3144134277, 1013904242, 2773480762,
   1359893119, 2600822924, 528734635, 1541459225]

def sSigma0 (x : Nat) : Nat := rotr32 x 7 ^^^ rotr32 x 18 ^^^ (x >>> 3)
def sSigma1 (x : Nat) : Nat := rotr32 x 17 ^^^ rotr32 x 19 ^^^ (x >>> 10)
def bSigma0 (x : Nat) : Nat := rotr32 x 2 ^^^ rotr32 x 13 ^^^ rotr32 x 22
def bSigma1 (x : Nat) : Nat := rotr32 x 6 ^^^ rotr32 x 11 ^^^ rotr32 x 25
def chFn (x y z : Nat) : Nat := (x &&& y) ^^^ (not32 x &&& z)
def majFn (x y z : Nat) : Nat := (x &&& y) ^^^ (x &&& z) ^^^ (y &&& z)

/-- Append one word of the message schedule (indices 16..63). -/
def scheduleStep (w : List Nat) : List Nat :=
  let n := w.length
  w ++ [w32 (sSigma1 (w.getD (n - 2) 0) + w.getD (n - 7) 0 +
             sSigma0 (w.getD (n - 15) 0) + w.getD (n - 16) 0)]

/-- Extend a 16-word block to the 64-word message schedule. -/
def sha256Schedule (block : List Nat) : List Nat :=
  (List.range 48).foldl (fun w _ => scheduleStep w) block

/-- One round of the SHA-256 compression function on state
`[a, b, c, d, e, f, g, h]`. -/
def sha256Round (st : List Nat) (kw : Nat × Nat) : List Nat :=
  match st with
  | [a, b, c, d, e, f, g, h] =>
    let t1 := w32 (h + bSigma1 e + chFn e f g + kw.1 + kw.2)
    let t2 := w32 (bSigma0 a + majFn a b c)
    [w32 (t1 + t2), a, b, c, w32 (d + t1), e, f, g]
  | other => other

/-- Compress one 16-word block into the hash state. -/
def sha256Compress (h : List Nat) (block : List Nat) : List Nat :=
  let final := (sha256K.zip (sha256Schedule block)).foldl sha256Round h
  (h.zip final).map (fun p => w32 (p.1 + p.2))

/-- Big-endian 8-byte encoding of a (length) value. -/
def be8 (n : Nat) : List Nat :=
  [56, 48, 40, 32, 24, 16, 8, 0].map (fun s => n >>> s &&& 255)

/-- Group bytes into big-endian 32-bit words. -/
def bytesToWords : List Nat → List Nat
  | b0 :: b1 :: b2 :: b3 :: rest =>
    (((b0 * 256 + b1) * 256 + b2) * 256 + b3) :: bytesToWords rest
  | _ => []

/-- Split a word list into 16-word blocks (the padded message is always a
whole number of blocks). -/
def words16 : List Nat → List (List Nat)
  | w0 :: w1 :: w2 :: w3 :: w4 :: w5 :: w6 :: w7 ::
    w8 :: w9 :: wa :: wb :: wc :: wd :: we :: wf :: rest =>
    [w0, w1, w2, w3, w4, w5, w6, w7, w8, w9, wa, wb, wc, wd, we, wf] ::
      words16 rest
  | _ => []

/-- SHA-256 padding: `0x80`, zeros to 56 mod 64, 8-byte bit length. -/
def sha256Pad (msg : List Nat) : List Nat :=
  msg ++ [128] ++ List.replicate ((119 - msg.length % 64) % 64) 0 ++
    be8 (msg.length * 8)

/-- `hashlib.sha256(s.encode()).hexdigest()`. -/
def sha256hex (s : String) : String :=
  let blocks := words16 (bytesToWords (sha256Pad (strBytes s)))
  String.join ((blocks.foldl sha256Compress sha256H0).map (hexFixed 8))

/-! ### `generate_hash` (`apps/common/utils.py`) -/

/-- Python-dict insertion into an association list with unique keys:
assigning an existing key replaces its value in place, a fresh key is
appended (Python dicts preserve insertion order). -/
def dictInsert (d : List (String × JValue)) (k : String) (v : JValue) :
    List (String × JValue) :=
  if d.any (fun p => p.1 = k) then
    d.map (fun p => if p.1 = k then (k, v) else p)
  else d ++ [(k, v)]

/-- The `hash_data` dict of `generate_hash`:
`for field in fields: if field in data: hash_data[field] = data[field]`. -/
def buildHashData (data : List (String × JValue)) (fields : List String) :
    List (String × JValue) :=
  fields.foldl (fun acc f =>
    match data.lookup f with
    | some v => dictInsert acc f v
    | none => acc) []

/-- Lexicographic code-point comparison of char lists (Python's string
ordering, which `sort_keys=True` uses). -/
def charListLe : List Char → List Char → Bool
  | [], _ => true
  | _ :: _, [] => false
  | a :: as, b :: bs =>
    if a.toNat < b.toNat then true
    else if b.toNat < a.toNat then false
    else charListLe as bs

/-- Code-point ordering on strings. -/
def strLe (a b : String) : Bool := charListLe a.toList b.toList

/-- Insert an entry into a key-sorted association list. -/
def insertByKey (p : String × JValue) :
    List (String × JValue) → List (String × JValue)
  | [] => [p]
  | q :: rest => if strLe p.1 q.1 then p :: q :: rest else q :: insertByKey p rest

/-- Sort dict entries by key (the `sort_keys=True` of `json.dumps`). -/
def sortByKey (l : List (String × JValue)) : List (String × JValue) :=
  l.foldr insertByKey []

/-- `generate_hash(data, fields)`: restrict `data` to the listed fields,
serialise with `json.dumps(..., sort_keys=True)`, and hash with SHA-256. -/
def generate_hash (data : List (String × JValue)) (fields : List String) :
    String :=
  sha256hex (jsonDumpDict (sortByKey (buildHashData data fields)))

/-! ### Data model (`scraping_manager/apps/scraping/models.py`) -/

/-- `ScrapingGroup` (the fields the engine reads). `notify_emails` embeds the
source's list-of-notification-addresses field. -/
structure GroupRec where
  id : Nat
  name : String
  is_active : Bool
  notify_emails : List String
  run_parallel : Bool
deriving DecidableEq, Repr

/-- `ScrapingTask`. `extraction_schema` is embedded by its key list (the only
use the engine makes of it is `list(task.extraction_schema.keys())`, with the
empty dict falsy). -/
structure ScrapingTask where
  id : Nat
  group : Nat
  name : String
  target_url : String
  generated_code : String
  data_type : String
  extraction_schema : List String
  execution_order : Int
  is_active : Bool
  test_status : String
  last_test_at : Option Nat
  avg_execution_time : Option Rat
deriving DecidableEq, Repr

/-- `TaskRun`. -/
structure TaskRunRec where
  id : Nat
  taskId : Nat
  started_at : Nat
  completed_at : Option Nat
  status : String
  items_found : Nat
  error_message : String
  execution_logs : List (String × String)
deriving DecidableEq, Repr

/-- `ScrapedItem`. -/
structure ScrapedItem where
  task : Nat
  run : Nat
  item_type : String
  unique_hash : String
  data : List (String × JValue)
  source_urls : List String
  first_seen : Nat
  last_seen : Nat
  times_seen : Nat
deriving DecidableEq, Repr

/-! ### Per-record deduplication (`executors.py` lines 41-69) -/

/-- The filter predicate of
`ScrapedItem.objects.filter(task=task, unique_hash=item_hash)`. -/
def itemKeyMatches (it : ScrapedItem) (t : Nat) (h : String) : Bool :=
  it.task == t && it.unique_hash == h

/-- `.filter(task=..., unique_hash=...).first()`. -/
def findExisting (items : List ScrapedItem) (t : Nat) (h : String) :
    Option ScrapedItem :=
  items.find? (fun it => itemKeyMatches it t h)

/-- `existing_item.last_seen = timezone.now(); existing_item.times_seen += 1;
existing_item.save()` applied to the row `.first()` returned. -/
def touchFirst (t : Nat) (h : String) (now : Nat) :
    List ScrapedItem → List ScrapedItem
  | [] => []
  | it :: rest =>
    if itemKeyMatches it t h then
      { it with last_seen := now, times_seen := it.times_seen + 1 } :: rest
    else it :: touchFirst t h now rest

/-- The task-derived context the dedup loop body reads. -/
structure ReconcileCtx where
  taskId : Nat
  runId : Nat
  data_type : String
  target_url : String
  extraction_schema : List String
deriving DecidableEq, Repr

/-- `['title', 'url', 'description'] if not task.extraction_schema else
list(task.extraction_schema.keys())`. -/
def hashFields (schema : List String) : List String :=
  if schema.isEmpty then ["title", "url", "description"] else schema

/-- The fingerprint the loop body computes for one record. -/
def itemFingerprint (ctx : ReconcileCtx) (d : List (String × JValue)) : String :=
  generate_hash d (hashFields ctx.extraction_schema)

/-- The new row created on the miss path of the loop body. -/
def newScrapedItem (ctx : ReconcileCtx) (now : Nat) (h : String)
    (d : List (String × JValue)) : ScrapedItem :=
  { task := ctx.taskId, run := ctx.runId, item_type := ctx.data_type,
    unique_hash := h, data := d, source_urls := [ctx.target_url],
    first_seen := now, last_seen := now, times_seen := 1 }

/-- One iteration of the dedup loop of `execute_task`: hash, look up,
update-or-create. Returns the new store and whether `new_items` was
incremented. -/
def reconcileItem (ctx : ReconcileCtx) (now : Nat) (items : List ScrapedItem)
    (d : List (String × JValue)) : List ScrapedItem × Bool :=
  let h := itemFingerprint ctx d
  match findExisting items ctx.taskId h with
  | some _ => (touchFirst ctx.taskId h now items, false)
  | none => (items ++ [newScrapedItem ctx now h d], true)

/-- A reconciliation request: the loop body applied for one extracted record
under one job, at one instant. -/
structure ReconcileOp where
  ctx : ReconcileCtx
  now : Nat
  data : List (String × JValue)
deriving Repr

/-- A sequence of reconciliations applied to the store. -/
def runReconciles (ops : List ReconcileOp) (items : List ScrapedItem) :
    List ScrapedItem :=
  ops.foldl (fun st op => (reconcileItem op.ctx op.now st op.data).1) items

/-- At most one stored row per `(task, unique_hash)` pair. -/
def atMostOnePerKey (items : List ScrapedItem) : Prop :=
  ∀ t h, (items.filter (fun it => itemKeyMatches it t h)).length ≤ 1

/-! ### `TaskExecutor.run_in_container` (`executors.py` lines 108-193)

The Docker container and the regex/JSON scan of its combined logs are the
outside world; a `SandboxEvent` says what they did, and `run_in_container`
reproduces the Python control flow on that event. -/

/-- What the `re.findall` / `json.loads` recovery step produced. -/
inductive ParseOutcome where
  /-- A JSON-shaped match was found and parsed: its `success`, optional
  `data` list of records, and optional `error` text. -/
  | found (success : Bool) (data : Option (List (List (String × JValue))))
      (error : Option String)
  /-- No JSON-shaped substring in the logs. -/
  | noJson
  /-- `json.loads` raised `JSONDecodeError` on the match. -/
  | decodeError
deriving Repr

/-- What happened inside the `try` of `run_in_container`. -/
inductive SandboxEvent where
  /-- `containers.run` and `container.wait` completed: exit status code,
  combined container logs, and the parse outcome on those logs. -/
  | completed (statusCode : Nat) (containerLogs : String) (parsed : ParseOutcome)
  /-- `containers.run` or `container.wait` raised (in particular,
  `container.wait(timeout=300)` raising on deadline expiry), with the
  exception text. -/
  | raised (msg : String)
deriving Repr

/-- The dict `run_in_container` returns. On the exception path there is no
`data` key; on the completed path `output['logs']` is overwritten with the
container logs and exit code. -/
structure SandboxResult where
  success : Bool
  data : Option (List (List (String × JValue)))
  error : Option String
  logs : List (String × String)
deriving Repr

/-- `run_in_container`: every exception in its `try` is caught and turned
into a `success=False` dict, so the caller never sees a raise; the completed
path attaches container logs and exit code. -/
def run_in_container (ev : SandboxEvent) : SandboxResult :=
  match ev with
  | .raised msg =>
    { success := false, data := none, error := some msg,
      logs := [("error", msg)] }
  | .completed code logs parsed =>
    let base : SandboxResult :=
      match parsed with
      | .found s d e => { success := s, data := d, error := e, logs := [] }
      | .noJson =>
        { success := false, data := none,
          error := some "No JSON output found", logs := [] }
      | .decodeError =>
        { success := false, data := none,
          error := some "Failed to parse output", logs := [] }
    { base with logs := [("container_logs", logs), ("exit_code", toString code)] }

/-! ### `TaskExecutor.execute_task` (`executors.py` lines 18-106) -/

/-- Exception injection for the `try` block of `execute_task` (the DB and
the sandbox call are the outside world): either nothing raises, or an
exception with the given text is raised at one of the statements of the
block. -/
inductive FailPoint where
  /-- No exception is raised inside the `try`. -/
  | noFail
  /-- `self.run_in_container(...)` raises before the container is started
  (e.g. the temp-file creation, which sits outside its inner `try`). -/
  | sandboxRaise (msg : String)
  /-- The dedup loop raises while processing record `k` (0-based), after
  `k` records were fully reconciled; takes effect only if `k` is within the
  extracted data. -/
  | dedupRaise (k : Nat) (msg : String)
  /-- `task_run.save()` at the end of the `try` raises. -/
  | runSaveRaise (msg : String)
  /-- `task.save()` (the average-time update) raises. -/
  | taskSaveRaise (msg : String)
deriving DecidableEq, Repr

/-- The database state `execute_task` touches, plus a trace flag recording
whether the sandbox step was reached (a container was started). -/
structure ExecState where
  run : TaskRunRec
  task : ScrapingTask
  items : List ScrapedItem
  sandboxStarted : Bool
deriving Repr

/-- The dict `execute_task` returns. The happy path carries
`items_found` / `new_items` / `execution_time` and no `error` key; the
`except` path carries `error` only. -/
structure ExecResult where
  success : Bool
  task_run_id : Nat
  items_found : Option Nat
  new_items : Option Nat
  execution_time : Option Rat
  error : Option String
deriving DecidableEq, Repr

/-- The reconcile context `execute_task` builds from the task and run. -/
def execCtx (task : ScrapingTask) (runId : Nat) : ReconcileCtx :=
  { taskId := task.id, runId := runId, data_type := task.data_type,
    target_url := task.target_url, extraction_schema := task.extraction_schema }

/-- The dedup loop: fold `reconcileItem` over the extracted records,
counting `items_processed` and `new_items`. -/
def processItems (ctx : ReconcileCtx) (now : Nat)
    (ds : List (List (String × JValue))) (items : List ScrapedItem) :
    List ScrapedItem × Nat × Nat :=
  ds.foldl (fun acc d =>
    let r := reconcileItem ctx now acc.1 d
    (r.1, acc.2.1 + 1, acc.2.2 + if r.2 then 1 else 0)) (items, 0, 0)

/-- The fresh `TaskRun` row created on entry (`status='RUNNING'`). -/
def initialRun (taskId runId t0 : Nat) : TaskRunRec :=
  { id := runId, taskId := taskId, started_at := t0, completed_at := none,
    status := "RUNNING", items_found := 0, error_message := "",
    execution_logs := [] }

/-- The `except` handler of `execute_task`: mutate the current in-memory
run to `FAILED` with the exception text and completion time, save it, and
build the error result dict (note it does not reset fields the `try`
already assigned in memory). -/
def execExceptPath (runMem : TaskRunRec) (now : Nat) (msg : String)
    (task : ScrapingTask) (items : List ScrapedItem) (started : Bool) :
    ExecState × ExecResult :=
  let run1 :=
    { runMem with
        status := "FAILED", completed_at := some now, error_message := msg }
  ({ run := run1, task := task, items := items, sandboxStarted := started },
   { success := false, task_run_id := runMem.id, items_found := none,
     new_items := none, execution_time := none, error := some msg })

/-- The run-row assignments of lines 72-76 of `executors.py`
(`status`, `completed_at`, `items_found`, `execution_logs`,
`error_message`). -/
def completedRun (run0 : TaskRunRec) (result : SandboxResult) (now : Nat)
    (processed : Nat) : TaskRunRec :=
  { run0 with
      status := if result.success then "SUCCESS" else "FAILED",
      completed_at := some now, items_found := processed,
      execution_logs := result.logs,
      error_message := result.error.getD "" }

/-- Lines 37-93 of `executors.py` with nothing raising: dedup, run update,
average-time update, result dict. -/
def executeTaskTail (task : ScrapingTask) (runId t0 now : Nat)
    (run0 : TaskRunRec) (result : SandboxResult)
    (ds : List (List (String × JValue))) (items : List ScrapedItem) :
    ExecState × ExecResult :=
  let proc := processItems (execCtx task runId) now ds items
  let run1 := completedRun run0 result now proc.2.1
  -- `(completed_at - started_at).total_seconds()`; the completion reading
  -- is never before the start reading
  let execution_time : Rat := ((now - t0 : Nat) : Rat)
  -- `if task.avg_execution_time:` — Python truthiness: None and 0.0 both
  -- take the else branch
  let newAvg : Rat :=
    match task.avg_execution_time with
    | some avg => if avg = 0 then execution_time else (avg + execution_time) / 2
    | none => execution_time
  let task1 := { task with avg_execution_time := some newAvg }
  ({ run := run1, task := task1, items := proc.1, sandboxStarted := true },
   { success := result.success, task_run_id := runId,
     items_found := some proc.2.1, new_items := some proc.2.2,
     execution_time := some execution_time, error := none })

/-- `TaskExecutor.execute_task` after the `TaskRun` row exists. Inputs:
the task row, the run id and two clock readings (`t0` on run creation,
`now` at the later `timezone.now()` calls), the sandbox event, the
exception injection, and the current `ScrapedItem` store. -/
def execute_task (task : ScrapingTask) (runId t0 now : Nat)
    (ev : SandboxEvent) (fp : FailPoint) (items : List ScrapedItem) :
    ExecState × ExecResult :=
  let run0 := initialRun task.id runId t0
  match fp with
  | .sandboxRaise msg => execExceptPath run0 now msg task items false
  | fp =>
    let result := run_in_container ev
    -- `if result['success'] and result['data']:`
    let ds := if result.success then (result.data.getD []) else []
    match fp with
    | .dedupRaise k msg =>
      if k < ds.length then
        let part := processItems (execCtx task runId) now (ds.take k) items
        execExceptPath run0 now msg task part.1 true
      else
        executeTaskTail task runId t0 now run0 result ds items
    | .runSaveRaise msg =>
      let proc := processItems (execCtx task runId) now ds items
      -- the in-memory run already holds the assignments of lines 72-76
      execExceptPath (completedRun run0 result now proc.2.1) now msg task
        proc.1 true
    | .taskSaveRaise msg =>
      let proc := processItems (execCtx task runId) now ds items
      -- the run was saved, then `task.save()` raised: the except handler
      -- re-saves the run as FAILED; the task row is untouched
      execExceptPath (completedRun run0 result now proc.2.1) now msg task
        proc.1 true
    | _ => executeTaskTail task runId t0 now run0 result ds items

/-! ### `run_scraping_task` (`tasks.py` lines 14-31) -/

/-- Everything one invocation of the per-job runner sees: the task row the
id lookup finds (`none` models `ScrapingTask.DoesNotExist`), the run id the
database assigns, the two clock readings, the sandbox event and the
exception injection for the `try` block, and the item store. -/
structure TaskEnv where
  task? : Option ScrapingTask
  runId : Nat
  t0 : Nat
  now : Nat
  ev : SandboxEvent
  fp : FailPoint
  items : List ScrapedItem
deriving Repr

/-- `execute_task` including its first two statements: the task lookup and
run creation sit before the `try`, so their exceptions propagate. -/
def execute_task_entry (env : TaskEnv) : Except String (ExecState × ExecResult) :=
  match env.task? with
  | none => .error "ScrapingTask matching query does not exist."
  | some task =>
    .ok (execute_task task env.runId env.t0 env.now env.ev env.fp env.items)

/-- `run_scraping_task`: wraps the executor; its `except` clause logs and
then re-raises, so an exception from `execute_task` propagates unchanged
and a normal result is returned unchanged. -/
def run_scraping_task (env : TaskEnv) : Except String (ExecState × ExecResult) :=
  match execute_task_entry env with
  | .error e => .error e
  | .ok r => .ok r

/-! ### `run_scraping_group` (`tasks.py` lines 34-76) -/

/-- Insert into a list sorted by `execution_order`. -/
def insertByOrder (e : ScrapingTask × TaskEnv) :
    List (ScrapingTask × TaskEnv) → List (ScrapingTask × TaskEnv)
  | [] => [e]
  | q :: rest =>
    if e.1.execution_order ≤ q.1.execution_order then e :: q :: rest
    else q :: insertByOrder e rest

/-- Sort by `execution_order` (the `order_by('execution_order')`). -/
def sortByOrder (l : List (ScrapingTask × TaskEnv)) :
    List (ScrapingTask × TaskEnv) :=
  l.foldr insertByOrder []

/-- `group.tasks.filter(is_active=True).order_by('execution_order')`.
Each selected task is paired with the environment its own run will see. -/
def selectActive (tasks : List (ScrapingTask × TaskEnv)) :
    List (ScrapingTask × TaskEnv) :=
  sortByOrder (tasks.filter (fun e => e.1.is_active))

/-- The sequential branch: `for task in tasks:
result = run_scraping_task.delay(task.id).get()`. Returns the ids of the
tasks whose run was actually invoked, and either the collected results or
the exception `.get()` re-raised (which aborts the loop). -/
def runSequentialAux :
    List (ScrapingTask × TaskEnv) →
    List Nat × Except String (List (ExecState × ExecResult))
  | [] => ([], .ok [])
  | (t, env) :: rest =>
    match run_scraping_task env with
    | .error e => ([t.id], .error e)
    | .ok r =>
      let tail := runSequentialAux rest
      (t.id :: tail.1, tail.2.map (fun rs => r :: rs))

/-- The parallel branch: a celery group dispatches every selected task and
`results.get()` re-raises if any sub-task raised; results come back keyed
in dispatch order. All selected tasks are invoked. -/
def runParallelAux (selected : List (ScrapingTask × TaskEnv)) :
    List Nat × Except String (List (ExecState × ExecResult)) :=
  (selected.map (fun e => e.1.id),
   selected.foldr
     (fun e acc =>
       match run_scraping_task e.2, acc with
       | .error msg, _ => .error msg
       | .ok r, .ok rs => .ok (r :: rs)
       | .ok _, .error msg => .error msg)
     (.ok []))

/-- The dict `run_scraping_group` returns. -/
structure GroupRunResult where
  group_id : Nat
  tasks_run : Nat
  results : List ExecResult
deriving DecidableEq, Repr

/-- `run_scraping_group`: select the group's active tasks in execution
order, run them in parallel or sequentially, and return the aggregate dict;
its `except` clause logs and re-raises, so any exception from a run
propagates. Also returns the ids of the tasks that were invoked. -/
def run_scraping_group (group : GroupRec)
    (tasks : List (ScrapingTask × TaskEnv)) :
    List Nat × Except String GroupRunResult :=
  let selected := selectActive tasks
  let branch :=
    if group.run_parallel then runParallelAux selected
    else runSequentialAux selected
  (branch.1,
   branch.2.map (fun rs =>
     { group_id := group.id, tasks_run := rs.length,
       results := rs.map (fun r => r.2) }))

/-! ### `send_group_completion_email` aggregation (`tasks.py` lines 86-88) -/

/-- `sum(r.get('items_found', 0) for r in task_results if r.get('success'))`. -/
def total_items (rs : List ExecResult) : Nat :=
  rs.foldl (fun a r => if r.success then a + r.items_found.getD 0 else a) 0

/-- `sum(r.get('new_items', 0) for r in task_results if r.get('success'))`. -/
def total_new_items (rs : List ExecResult) : Nat :=
  rs.foldl (fun a r => if r.success then a + r.new_items.getD 0 else a) 0

/-- `sum(1 for r in task_results if not r.get('success'))`. -/
def failed_tasks_count (rs : List ExecResult) : Nat :=
  rs.foldl (fun a r => if r.success then a else a + 1) 0

/-! ### `test_scraping_task` (`tasks.py` lines 120-150) -/

/-- `test_scraping_task`: set `test_status='TESTING'` and save, run the
task via `run_scraping_task`, then set `PASSED`/`FAILED` and
`last_test_at` on the *stale* pre-run instance and save it (a Django
`save()` writes every column, so the run's `avg_execution_time` update is
overwritten with the stale value). Returns the final task row, the
execution state and the result, or the re-raised exception. -/
def test_scraping_task (env : TaskEnv) (testNow : Nat) :
    Except String (ScrapingTask × ExecState × ExecResult) :=
  match env.task? with
  | none => .error "ScrapingTask matching query does not exist."
  | some task =>
    let taskTesting := { task with test_status := "TESTING" }
    match run_scraping_task { env with task? := some taskTesting } with
    | .error e => .error e
    | .ok (st, res) =>
      let finalTask :=
        { taskTesting with
            test_status := if res.success then "PASSED" else "FAILED",
            last_test_at := some testNow }
      .ok (finalTask, st, res)

/-! ### `StagehandScraperService.validate_code`
(`apps/tasks/services/scraper_service.py` lines 88-109) -/

/-- Naive substring containment (Python `op in code`). -/
def strContains (s pat : String) : Bool :=
  let sl := s.toList
  let pl := pat.toList
  (List.range (sl.length + 1)).any (fun i => pl.isPrefixOf (sl.drop i))

/-- The `dangerous_ops` list. -/
def dangerousOps : List String :=
  ["__import__", "eval", "exec", "compile", "open", "file", "input",
   "raw_input"]

/-- `code.strip()` (ASCII-whitespace model of Python strip). -/
def strippedChars (s : String) : List Char :=
  ((s.toList.dropWhile Char.isWhitespace).reverse.dropWhile
    Char.isWhitespace).reverse

/-- `validate_code`: empty check, dangerous-operation scan (skipping
`'exec'`), and the required `async def scrape_data` entry point; valid iff
no issue was collected. -/
def validate_code (code : String) : Bool × List String :=
  let issues :=
    (if (strippedChars code).isEmpty then ["Code is empty"] else []) ++
    (dangerousOps.filterMap (fun op =>
      if strContains code op && op != "exec" then
        some ("Dangerous operation '" ++ op ++ "' detected")
      else none)) ++
    (if !strContains code "async def scrape_data" then
      ["Missing 'async def scrape_data()' function"]
     else [])
  (issues.isEmpty, issues)

/-! ### `execute_scraper_task` (`apps/tasks/tasks.py` lines 13-79) -/

/-- The `TaskExecution` row fields this task touches, plus a trace flag
recording whether `execute_scraper` was invoked. -/
structure ScraperExecState where
  status : String
  error_message : String
  completed_at : Option Nat
  scraperStarted : Bool
deriving DecidableEq, Repr

/-- `execute_scraper_task` after the `TaskExecution` row was found:
validate first; on validation failure mark the execution `failed` with the
joined issue list and return without executing the scraper; otherwise run
the scraper (whose outcome `scraperOk`/`scraperError` is an input) and
record the result. -/
def execute_scraper_task (code : String) (now : Nat) (scraperOk : Bool)
    (scraperError : String) : ScraperExecState × (Bool × String) :=
  let validation := validate_code code
  if !validation.1 then
    let msg := "Code validation failed: " ++
      String.intercalate ", " validation.2
    ({ status := "failed", error_message := msg, completed_at := some now,
       scraperStarted := false },
     (false, msg))
  else if scraperOk then
    ({ status := "success", error_message := "", completed_at := some now,
       scraperStarted := true },
     (true, ""))
  else
    ({ status := "failed", error_message := scraperError,
       completed_at := some now, scraperStarted := true },
     (false, scraperError))

/-! ## Theorems -/

/-- The dict-building loop of `generate_hash` only consults `data` through
`data[field]` lookups of the listed fields, so agreement on those lookups
gives the same dict. -/
theorem buildHashData_eq_of_lookup_eq (d1 d2 : List (String × JValue)) :
    ∀ (fields : List String),
      (∀ f ∈ fields, d1.lookup f = d2.lookup f) →
      buildHashData d1 fields = buildHashData d2 fields := by
  suffices aux : ∀ (fields : List String) (acc : List (String × JValue)),
      (∀ f ∈ fields, d1.lookup f = d2.lookup f) →
      fields.foldl (fun acc f =>
        match d1.lookup f with
        | some v => dictInsert acc f v
        | none => acc) acc =
      fields.foldl (fun acc f =>
        match d2.lookup f with
        | some v => dictInsert acc f v
        | none => acc) acc by
    intro fields h
    exact aux fields [] h
  intro fields
  induction fields with
  | nil => intro acc _; rfl
  | cons f fs ih =>
    intro acc h
    simp only [List.foldl_cons]
    rw [h f (List.mem_cons_self f fs)]
    exact ih _ (fun g hg => h g (List.mem_cons_of_mem f hg))

/-- C5: for every job and every pair of input records, if the two records
carry identical values on every selected field (the job's declared schema
keys when present, else the default field set title/url/description), the
fingerprint function returns the same hash for both, regardless of the
ordering of fields in the input or the presence of extra non-selected
fields. -/
theorem C5_fingerprint_deterministic (d1 d2 : List (String × JValue))
    (schema : List String)
    (h : ∀ f ∈ hashFields schema, d1.lookup f = d2.lookup f) :
    generate_hash d1 (hashFields schema) = generate_hash d2 (hashFields schema) := by
  unfold generate_hash
  rw [buildHashData_eq_of_lookup_eq d1 d2 (hashFields schema) h]

/-- A first input record, fields out of order with an extra field. -/
def recW1 : List (String × JValue) :=
  [("url", .str "http://a.example/x"), ("title", .str "Example"),
   ("extra", .num 7)]

/-- A second input record with the same title/url/description values. -/
def recW2 : List (String × JValue) :=
  [("title", .str "Example"), ("url", .str "http://a.example/x")]

/-- Witness for C5 at a concrete pair of records under the default field
set. -/
theorem C5_witness :
    (∀ f ∈ hashFields [], recW1.lookup f = recW2.lookup f) ∧
    generate_hash recW1 (hashFields []) = generate_hash recW2 (hashFields []) :=
  ⟨by decide, C5_fingerprint_deterministic recW1 recW2 [] (by decide)⟩

/-- `touchFirst` only rewrites `last_seen`/`times_seen` of one row, so the
number of rows matching any `(task, unique_hash)` pair is unchanged. -/
theorem touchFirst_filter_length (t : Nat) (h : String) (now : Nat)
    (items : List ScrapedItem) (t' : Nat) (h' : String) :
    ((touchFirst t h now items).filter
        (fun it => itemKeyMatches it t' h')).length =
      (items.filter (fun it => itemKeyMatches it t' h')).length := by
  induction items with
  | nil => rfl
  | cons it rest ih =>
    by_cases hm : itemKeyMatches it t h = true
    · simp only [touchFirst, hm, if_true]
      have hkey : itemKeyMatches
          { it with last_seen := now, times_seen := it.times_seen + 1 } t' h' =
          itemKeyMatches it t' h' := rfl
      by_cases hm' : itemKeyMatches it t' h' = true
      · simp [List.filter_cons, hkey, hm']
      · simp at hm'
        simp [List.filter_cons, hkey, hm']
    · simp at hm
      simp only [touchFirst, hm, if_false, Bool.false_eq_true]
      by_cases hm' : itemKeyMatches it t' h' = true
      · simp [List.filter_cons, hm', ih]
      · simp at hm'
        simp [List.filter_cons, hm', ih]

/-- `touchFirst` never changes the number of stored rows. -/
theorem touchFirst_length (t : Nat) (h : String) (now : Nat)
    (items : List ScrapedItem) :
    (touchFirst t h now items).length = items.length := by
  induction items with
  | nil => rfl
  | cons it rest ih =>
    by_cases hm : itemKeyMatches it t h = true
    · simp [touchFirst, hm]
    · simp at hm
      simp [touchFirst, hm, ih]

/-- One reconciliation step preserves the at-most-one-row-per-pair
invariant. -/
theorem reconcileItem_preserves_inv (ctx : ReconcileCtx) (now : Nat)
    (items : List ScrapedItem) (d : List (String × JValue))
    (hinv : atMostOnePerKey items) :
    atMostOnePerKey (reconcileItem ctx now items d).1 := by
  intro t' h'
  unfold reconcileItem
  cases hfind : findExisting items ctx.taskId (itemFingerprint ctx d) with
  | some it =>
    simp only [hfind]
    simpa [touchFirst_filter_length] using hinv t' h'
  | none =>
    simp only [hfind]
    have hnone : ∀ it ∈ items,
        itemKeyMatches it ctx.taskId (itemFingerprint ctx d) = false := by
      intro it hmem
      have := List.find?_eq_none.mp hfind it hmem
      simpa using this
    simp only [List.filter_append, List.length_append]
    by_cases hnew : itemKeyMatches
        (newScrapedItem ctx now (itemFingerprint ctx d) d) t' h' = true
    · have hkey : t' = ctx.taskId ∧ h' = itemFingerprint ctx d := by
        simp [itemKeyMatches, newScrapedItem] at hnew
        exact ⟨hnew.1.symm, hnew.2.symm⟩
      have hempty : items.filter (fun it => itemKeyMatches it t' h') = [] := by
        rw [List.filter_eq_nil_iff]
        intro it hmem
        rw [hkey.1, hkey.2]
        simp [hnone it hmem]
      simp [hempty, hnew]
    · simp at hnew
      have := hinv t' h'
      simp [hnew]
      omega

/-- C1: for every job and every fingerprint, after any sequence of
reconciliation operations (the per-record dedup step of `execute_task`),
at most one `ScrapedItem` exists with that `(task, unique_hash)` pair, and
a duplicate observation updates the stored record in place rather than
creating a second one (the store does not grow). -/
theorem C1_dedup_unique (ops : List ReconcileOp) (items : List ScrapedItem)
    (hinv : atMostOnePerKey items) :
    atMostOnePerKey (runReconciles ops items) ∧
    ∀ (op : ReconcileOp) (st : List ScrapedItem),
      (findExisting st op.ctx.taskId (itemFingerprint op.ctx op.data)).isSome →
      ((reconcileItem op.ctx op.now st op.data).1).length = st.length := by
  constructor
  · induction ops generalizing items with
    | nil => exact hinv
    | cons op rest ih =>
      exact ih _ (reconcileItem_preserves_inv op.ctx op.now items op.data hinv)
  · intro op st hdup
    unfold reconcileItem
    cases hfind : findExisting st op.ctx.taskId (itemFingerprint op.ctx op.data) with
    | some it => simp [hfind, touchFirst_length]
    | none => rw [hfind] at hdup; simp at hdup

/-- A concrete reconciliation request (default field set). -/
def opW : ReconcileOp :=
  { ctx := { taskId := 1, runId := 2, data_type := "GENERIC",
             target_url := "http://a.example", extraction_schema := [] },
    now := 3, data := recW2 }

/-- Witness for C1: starting from the empty store, two identical
observations leave the invariant intact. -/
theorem C1_witness :
    atMostOnePerKey [] ∧ atMostOnePerKey (runReconciles [opW, opW] []) :=
  have h0 : atMostOnePerKey [] := by intro t h; simp
  ⟨h0, (C1_dedup_unique [opW, opW] [] h0).1⟩

/-- `.first()` on a store split around the first matching row returns that
row. -/
theorem findExisting_split (t : Nat) (h : String)
    (pre post : List ScrapedItem) (it : ScrapedItem)
    (hpre : ∀ p ∈ pre, itemKeyMatches p t h = false)
    (hit : itemKeyMatches it t h = true) :
    findExisting (pre ++ it :: post) t h = some it := by
  induction pre with
  | nil => simp [findExisting, List.find?_cons_of_pos, hit]
  | cons p ps ih =>
    have hp := hpre p (List.mem_cons_self p ps)
    simp only [List.cons_append, findExisting] at ih ⊢
    rw [List.find?_cons_of_neg _ (by simp [hp])]
    exact ih (fun q hq => hpre q (List.mem_cons_of_mem p hq))

/-- The update path rewrites exactly the first matching row, leaving every
other row — and every other field of that row — untouched. -/
theorem touchFirst_split (t : Nat) (h : String) (now : Nat)
    (pre post : List ScrapedItem) (it : ScrapedItem)
    (hpre : ∀ p ∈ pre, itemKeyMatches p t h = false)
    (hit : itemKeyMatches it t h = true) :
    touchFirst t h now (pre ++ it :: post) =
      pre ++ { it with last_seen := now, times_seen := it.times_seen + 1 }
        :: post := by
  induction pre with
  | nil => simp [touchFirst, hit]
  | cons p ps ih =>
    have hp := hpre p (List.mem_cons_self p ps)
    simp only [List.cons_append, touchFirst, hp, Bool.false_eq_true, if_false,
      List.append_eq]
    rw [ih (fun q hq => hpre q (List.mem_cons_of_mem p hq))]

/-- The dedup context of a job whose target URL is now `http://b.example`,
while the stored row below was created under an earlier target URL. -/
def ctxB : ReconcileCtx :=
  { taskId := 1, runId := 9, data_type := "GENERIC",
    target_url := "http://b.example", extraction_schema := [] }

/-- A stored row for the same payload, created when the job's target URL
was `http://a.example`. -/
def itemA : ScrapedItem :=
  { task := 1, run := 3, item_type := "GENERIC",
    unique_hash := itemFingerprint ctxB recW2, data := recW2,
    source_urls := ["http://a.example"], first_seen := 1, last_seen := 1,
    times_seen := 1 }

/-- Counterexample to C2 as stated: a duplicate observation whose source
location `http://b.example` is not in the stored row's source set leaves
the source set unchanged — the loop body performs no merge of the observed
source location. -/
theorem C2_counterexample :
    (findExisting [itemA] ctxB.taskId (itemFingerprint ctxB recW2)).isSome
        = true ∧
    ∀ it ∈ (reconcileItem ctxB 5 [itemA] recW2).1,
      "http://b.example" ∉ it.source_urls := by
  decide

/-- C2 (amended): on a miss, a new row is created with `times_seen = 1` and
source set `[target_url]`; on a hit, the first matching row gets
`last_seen = now` and `times_seen + 1` while its source set (and every
other field and row) is left unchanged — no source location is merged. -/
theorem C2_insert_or_touch (ctx : ReconcileCtx) (now : Nat)
    (items : List ScrapedItem) (d : List (String × JValue)) :
    (findExisting items ctx.taskId (itemFingerprint ctx d) = none →
      reconcileItem ctx now items d =
        (items ++ [newScrapedItem ctx now (itemFingerprint ctx d) d], true)) ∧
    (∀ pre it post,
      items = pre ++ it :: post →
      (∀ p ∈ pre, itemKeyMatches p ctx.taskId (itemFingerprint ctx d) = false) →
      itemKeyMatches it ctx.taskId (itemFingerprint ctx d) = true →
      reconcileItem ctx now items d =
        (pre ++ { it with last_seen := now, times_seen := it.times_seen + 1 }
           :: post, false)) := by
  constructor
  · intro hmiss
    unfold reconcileItem
    simp [hmiss]
  · intro pre it post hsplit hpre hit
    subst hsplit
    unfold reconcileItem
    dsimp only
    rw [findExisting_split ctx.taskId (itemFingerprint ctx d) pre post it hpre hit]
    rw [touchFirst_split ctx.taskId (itemFingerprint ctx d) now pre post it hpre hit]

/-- Witness for C2 (amended) on the concrete store `[itemA]`. -/
theorem C2_witness :
    itemKeyMatches itemA ctxB.taskId (itemFingerprint ctxB recW2) = true ∧
    reconcileItem ctxB 5 [itemA] recW2 =
      ([{ itemA with last_seen := 5, times_seen := itemA.times_seen + 1 }],
       false) :=
  ⟨by decide,
   (C2_insert_or_touch ctxB 5 [itemA] recW2).2 [] itemA [] rfl
     (by simp) (by decide)⟩

/-- A job whose sandboxed routine will exceed the deadline. -/
def taskC3 : ScrapingTask :=
  { id := 3, group := 1, name := "deadline-job",
    target_url := "http://t3.example",
    generated_code := "async def scrape_example(stagehand):\n    return []",
    data_type := "GENERIC", extraction_schema := [], execution_order := 0,
    is_active := true, test_status := "UNTESTED", last_test_at := none,
    avg_execution_time := none }

/-- The exception text `container.wait(timeout=300)` raises on deadline
expiry. -/
def timeoutMsg : String := "Read timed out. (read timeout=300)"

/-- C3 (evaluating the code at the failing input): when the container wait
raises on deadline expiry, `run_in_container` swallows the exception into a
`success=False` dict and `execute_task` records the Run as `FAILED` with
the exception text; the status `TIMEOUT` is never assigned. -/
theorem C3_timeout_marked_failed :
    (run_in_container (.raised timeoutMsg)).success = false ∧
    (execute_task taskC3 11 0 300 (.raised timeoutMsg) .noFail
        []).1.run.status = "FAILED" ∧
    ¬ (execute_task taskC3 11 0 300 (.raised timeoutMsg) .noFail
        []).1.run.status = "TIMEOUT" ∧
    (execute_task taskC3 11 0 300 (.raised timeoutMsg) .noFail
        []).1.run.error_message = timeoutMsg := by
  decide

/-- An invocation whose task id lookup raises `DoesNotExist`. -/
def envMissing : TaskEnv :=
  { task? := none, runId := 41, t0 := 0, now := 2,
    ev := .raised "boom", fp := .noFail, items := [] }

/-- A task row paired with the raising environment in a group run. -/
def taskGhost : ScrapingTask :=
  { id := 42, group := 40, name := "ghost", target_url := "http://g.example",
    generated_code := "async def scrape_example(stagehand):\n    return []",
    data_type := "GENERIC", extraction_schema := [], execution_order := 0,
    is_active := true, test_status := "UNTESTED", last_test_at := none,
    avg_execution_time := none }

/-- A sequential group containing only the ghost task. -/
def groupMissing : GroupRec :=
  { id := 40, name := "g40", is_active := true, notify_emails := [],
    run_parallel := false }

/-- Counterexample to C4 as stated: when the task row is gone, the
exception escapes `execute_task`, and `run_scraping_task` and
`run_scraping_group` re-raise it instead of returning a result object. -/
theorem C4_counterexample :
    run_scraping_task envMissing =
      .error "ScrapingTask matching query does not exist." ∧
    (run_scraping_group groupMissing [(taskGhost, envMissing)]).2 =
      .error "ScrapingTask matching query does not exist." :=
  ⟨rfl, rfl⟩

/-- C4 (amended): once the task row is found and the Run record created,
`execute_task` catches every exception and always returns a result whose
`success` field mirrors the Run's terminal status. -/
theorem C4_runner_result (env : TaskEnv) (task : ScrapingTask)
    (h : env.task? = some task) :
    ∃ st res, run_scraping_task env = .ok (st, res) ∧
      (res.success = true ↔ st.run.status = "SUCCESS") := by
  refine ⟨(execute_task task env.runId env.t0 env.now env.ev env.fp
             env.items).1,
          (execute_task task env.runId env.t0 env.now env.ev env.fp
             env.items).2,
          by simp [run_scraping_task, execute_task_entry, h], ?_⟩
  cases hfp : env.fp with
  | noFail =>
    simp only [execute_task, executeTaskTail, completedRun]
    cases hres : (run_in_container env.ev).success <;> simp [hres]
  | sandboxRaise m => simp [execute_task, execExceptPath]
  | dedupRaise k m =>
    simp only [execute_task]
    by_cases hk : k < (if (run_in_container env.ev).success then
        ((run_in_container env.ev).data.getD []) else []).length
    · simp [hk, execExceptPath]
    · simp only [executeTaskTail, completedRun, hk, if_false]
      cases hres : (run_in_container env.ev).success <;> simp [hres]
  | runSaveRaise m => simp [execute_task, execExceptPath]
  | taskSaveRaise m => simp [execute_task, execExceptPath]

/-- A healthy invocation environment. -/
def envW4 : TaskEnv :=
  { task? := some taskGhost, runId := 43, t0 := 0, now := 2,
    ev := .completed 0 "" (.found true none none), fp := .noFail,
    items := [] }

/-- Witness for C4 (amended) at a concrete healthy environment. -/
theorem C4_witness :
    ∃ st res, run_scraping_task envW4 = .ok (st, res) ∧
      (res.success = true ↔ st.run.status = "SUCCESS") :=
  C4_runner_result envW4 taskGhost rfl

/-- A job with an empty (structurally invalid) routine. -/
def taskEmptyCode : ScrapingTask :=
  { id := 6, group := 1, name := "empty-routine",
    target_url := "http://e.example", generated_code := "",
    data_type := "GENERIC", extraction_schema := [], execution_order := 0,
    is_active := true, test_status := "UNTESTED", last_test_at := none,
    avg_execution_time := none }

/-- Counterexample to C6 as stated: the run operation
(`TaskExecutor.execute_task`) performs no structural validation — a job
whose routine fails `validate_code` (here: empty text) still starts the
sandbox, and the Run's status comes from the sandbox outcome. -/
theorem C6_counterexample :
    (validate_code "").1 = false ∧
    (execute_task taskEmptyCode 61 0 3
        (.completed 1 "NameError: scrape_example is not defined" .noJson)
        .noFail []).1.sandboxStarted = true := by
  decide

/-- C6 (amended): the validation gate exists only in the
`execute_scraper_task` pipeline, where a routine failing the structural
checks marks the execution record failed with a validation error and
returns before the scraper runs. -/
theorem C6_validation_blocks_scraper (code : String) (now : Nat) (ok : Bool)
    (err : String) (h : (validate_code code).1 = false) :
    (execute_scraper_task code now ok err).1.status = "failed" ∧
    (execute_scraper_task code now ok err).1.scraperStarted = false ∧
    (execute_scraper_task code now ok err).1.error_message =
      "Code validation failed: " ++
        String.intercalate ", " (validate_code code).2 ∧
    (execute_scraper_task code now ok err).2.1 = false := by
  simp [execute_scraper_task, h]

/-- Witness for C6 (amended) on the empty routine. -/
theorem C6_witness :
    (validate_code "").1 = false ∧
    (execute_scraper_task "" 5 true "").1.scraperStarted = false :=
  ⟨by decide, (C6_validation_blocks_scraper "" 5 true "" (by decide)).2.1⟩

/-- Whether a modelled Python call returned normally. -/
def isOkB {α : Type} : Except String α → Bool
  | .ok _ => true
  | .error _ => false

/-- Membership through `insertByOrder`. -/
theorem mem_insertByOrder (e a : ScrapingTask × TaskEnv)
    (l : List (ScrapingTask × TaskEnv)) :
    a ∈ insertByOrder e l ↔ a = e ∨ a ∈ l := by
  induction l with
  | nil => simp [insertByOrder]
  | cons q rest ih =>
    by_cases hle : e.1.execution_order ≤ q.1.execution_order
    · simp [insertByOrder, hle]
    · simp [insertByOrder, hle, ih]
      tauto

/-- `insertByOrder` preserves sortedness by `execution_order`. -/
theorem pairwise_insertByOrder (e : ScrapingTask × TaskEnv)
    (l : List (ScrapingTask × TaskEnv))
    (hl : l.Pairwise (fun a b => a.1.execution_order ≤ b.1.execution_order)) :
    (insertByOrder e l).Pairwise
      (fun a b => a.1.execution_order ≤ b.1.execution_order) := by
  induction l with
  | nil => simp [insertByOrder]
  | cons q rest ih =>
    rw [List.pairwise_cons] at hl
    obtain ⟨hq, hrest⟩ := hl
    by_cases hle : e.1.execution_order ≤ q.1.execution_order
    · simp only [insertByOrder, hle, if_true]
      rw [List.pairwise_cons]
      refine ⟨?_, ?_⟩
      · intro b hb
        rcases List.mem_cons.mp hb with hbq | hbr
        · exact hbq ▸ hle
        · exact le_trans hle (hq b hbr)
      · rw [List.pairwise_cons]
        exact ⟨hq, hrest⟩
    · simp only [insertByOrder, hle, if_false]
      rw [List.pairwise_cons]
      refine ⟨?_, ih hrest⟩
      intro b hb
      rcases (mem_insertByOrder e b rest).mp hb with hbe | hbr
      · subst hbe
        omega
      · exact hq b hbr

/-- Sorting by `execution_order` yields a non-decreasing schedule. -/
theorem pairwise_sortByOrder (l : List (ScrapingTask × TaskEnv)) :
    (sortByOrder l).Pairwise
      (fun a b => a.1.execution_order ≤ b.1.execution_order) := by
  induction l with
  | nil => simp [sortByOrder]
  | cons e rest ih => exact pairwise_insertByOrder e _ ih

/-- `insertByOrder` is a permutation of consing. -/
theorem insertByOrder_perm (e : ScrapingTask × TaskEnv)
    (l : List (ScrapingTask × TaskEnv)) :
    (insertByOrder e l).Perm (e :: l) := by
  induction l with
  | nil => simp [insertByOrder]
  | cons q rest ih =>
    by_cases hle : e.1.execution_order ≤ q.1.execution_order
    · simp [insertByOrder, hle]
    · simp only [insertByOrder, hle, if_false]
      exact (ih.cons q).trans (List.Perm.swap e q rest)

/-- The execution-order sort is a permutation: no job is dropped or
duplicated. -/
theorem sortByOrder_perm (l : List (ScrapingTask × TaskEnv)) :
    (sortByOrder l).Perm l := by
  induction l with
  | nil => rfl
  | cons e rest ih => exact (insertByOrder_perm e _).trans (ih.cons e)

/-- When no per-job runner raises, the sequential loop invokes every
scheduled job and collects one result per job. -/
theorem runSequentialAux_all_ok (l : List (ScrapingTask × TaskEnv))
    (h : ∀ e ∈ l, isOkB (run_scraping_task e.2) = true) :
    (runSequentialAux l).1 = l.map (fun e => e.1.id) ∧
    ∃ rs, (runSequentialAux l).2 = .ok rs ∧ rs.length = l.length := by
  induction l with
  | nil => exact ⟨rfl, [], rfl, rfl⟩
  | cons e rest ih =>
    have he := h e (List.mem_cons_self e rest)
    cases hrun : run_scraping_task e.2 with
    | error m => rw [hrun] at he; simp [isOkB] at he
    | ok r =>
      obtain ⟨htr, rs, hok, hlen⟩ :=
        ih (fun q hq => h q (List.mem_cons_of_mem e hq))
      refine ⟨?_, r :: rs, ?_, ?_⟩
      · simp [runSequentialAux, hrun, htr]
      · simp [runSequentialAux, hrun, hok, Except.map]
      · simp [hlen]

/-- C7 (amended): in sequential mode the group runs exactly the active
jobs, one at a time in non-decreasing `execution_order` (each exactly
once), provided no per-job runner raises — a job whose *result* reports
failure does not abort the sequence; a raising runner does (see the
counterexample). -/
theorem C7_sequential_execution (group : GroupRec)
    (tasks : List (ScrapingTask × TaskEnv))
    (hseq : group.run_parallel = false)
    (hok : ∀ e ∈ selectActive tasks, isOkB (run_scraping_task e.2) = true) :
    (run_scraping_group group tasks).1 =
      (selectActive tasks).map (fun e => e.1.id) ∧
    (selectActive tasks).Pairwise
      (fun a b => a.1.execution_order ≤ b.1.execution_order) ∧
    (selectActive tasks).Perm (tasks.filter (fun e => e.1.is_active)) ∧
    ∃ g, (run_scraping_group group tasks).2 = .ok g ∧
      g.tasks_run = (selectActive tasks).length := by
  obtain ⟨htr, rs, hok2, hlen⟩ := runSequentialAux_all_ok (selectActive tasks) hok
  refine ⟨?_, ?_, ?_, ?_⟩
  · simp [run_scraping_group, hseq, htr]
  · unfold selectActive
    exact pairwise_sortByOrder _
  · unfold selectActive
    exact sortByOrder_perm _
  · refine ⟨{ group_id := group.id, tasks_run := rs.length,
              results := rs.map (fun r => r.2) }, ?_, ?_⟩
    · simp [run_scraping_group, hseq, hok2, Except.map]
    · simpa using hlen

/-- First job of the raising sequential group. -/
def taskSeqA : ScrapingTask :=
  { id := 71, group := 7, name := "seq-a", target_url := "http://a7.example",
    generated_code := "async def scrape_example(stagehand):\n    return []",
    data_type := "GENERIC", extraction_schema := [], execution_order := 1,
    is_active := true, test_status := "UNTESTED", last_test_at := none,
    avg_execution_time := none }

/-- Second job of the raising sequential group. -/
def taskSeqB : ScrapingTask :=
  { taskSeqA with id := 72, name := "seq-b", execution_order := 2 }

/-- Environment whose runner raises (the task row vanished between the
group select and the per-task lookup). -/
def envRaise : TaskEnv :=
  { task? := none, runId := 75, t0 := 0, now := 1,
    ev := .raised "db down", fp := .noFail, items := [] }

/-- Healthy environment for the second job. -/
def envSeqB : TaskEnv :=
  { task? := some taskSeqB, runId := 76, t0 := 0, now := 1,
    ev := .completed 0 "" (.found true none none), fp := .noFail,
    items := [] }

/-- A sequential group. -/
def groupSeq : GroupRec :=
  { id := 7, name := "seq", is_active := true, notify_emails := [],
    run_parallel := false }

/-- Counterexample to C7 as stated: when the first job's runner raises,
the second active job is never invoked — a failing job aborts the
remaining sequence and the group re-raises. -/
theorem C7_counterexample :
    (run_scraping_group groupSeq [(taskSeqA, envRaise), (taskSeqB, envSeqB)]).1
        = [71] ∧
    (72 : Nat) ∉
      (run_scraping_group groupSeq
        [(taskSeqA, envRaise), (taskSeqB, envSeqB)]).1 ∧
    isOkB (run_scraping_group groupSeq
        [(taskSeqA, envRaise), (taskSeqB, envSeqB)]).2 = false := by
  decide

/-- Third job for the witness group (scrambled input order). -/
def taskSeqC : ScrapingTask :=
  { taskSeqA with id := 73, name := "seq-c", execution_order := 0 }

/-- Environment for the first job: the sandbox reports failure, so the
result has `success = false`, yet the runner returns normally. -/
def envSeqA_fail : TaskEnv :=
  { task? := some taskSeqA, runId := 77, t0 := 0, now := 2,
    ev := .completed 1 "" (.found false none (some "selector broke")),
    fp := .noFail, items := [] }

/-- Healthy environment for the third job. -/
def envSeqC : TaskEnv :=
  { task? := some taskSeqC, runId := 78, t0 := 0, now := 1,
    ev := .completed 0 "" (.found true none none), fp := .noFail,
    items := [] }

/-- The witness group's task list, given out of execution order and with a
mid-sequence failing (but not raising) job. -/
def tasksW7 : List (ScrapingTask × TaskEnv) :=
  [(taskSeqB, envSeqB), (taskSeqA, envSeqA_fail), (taskSeqC, envSeqC)]

/-- Witness for C7 (amended): the failing-but-returning job does not abort
the schedule and the executed ids come out in execution order. -/
theorem C7_witness :
    (∀ e ∈ selectActive tasksW7, isOkB (run_scraping_task e.2) = true) ∧
    (run_scraping_group groupSeq tasksW7).1 =
      (selectActive tasksW7).map (fun e => e.1.id) :=
  ⟨by decide, (C7_sequential_execution groupSeq tasksW7 rfl (by decide)).1⟩

/-- A filtered-sum fold equals the sum of the mapped filter. -/
theorem foldl_filter_sum (f : ExecResult → Nat) :
    ∀ (rs : List ExecResult) (n : Nat),
      rs.foldl (fun a r => if r.success then a + f r else a) n =
        n + ((rs.filter (fun r => r.success)).map f).sum := by
  intro rs
  induction rs with
  | nil => intro n; simp
  | cons r rest ih =>
    intro n
    by_cases h : r.success = true
    · simp [h, ih]
      omega
    · simp only [Bool.not_eq_true] at h
      simp [h, ih]

/-- A failure-count fold equals the length of the non-success filter. -/
theorem foldl_count_failed :
    ∀ (rs : List ExecResult) (n : Nat),
      rs.foldl (fun a r => if r.success then a else a + 1) n =
        n + (rs.filter (fun r => !r.success)).length := by
  intro rs
  induction rs with
  | nil => intro n; simp
  | cons r rest ih =>
    intro n
    by_cases h : r.success = true
    · simp [h, ih]
    · simp only [Bool.not_eq_true] at h
      simp [h, ih]
      omega

/-- C8: for every completed group run, the aggregated `items_found` and
`new_items` totals equal the sums of the per-job values restricted to
results reporting success, and the failed count is the number of
non-success results. -/
theorem C8_group_totals (group : GroupRec)
    (tasks : List (ScrapingTask × TaskEnv)) (g : GroupRunResult)
    (h : (run_scraping_group group tasks).2 = .ok g) :
    total_items g.results =
      ((g.results.filter (fun r => r.success)).map
        (fun r => r.items_found.getD 0)).sum ∧
    total_new_items g.results =
      ((g.results.filter (fun r => r.success)).map
        (fun r => r.new_items.getD 0)).sum ∧
    failed_tasks_count g.results =
      (g.results.filter (fun r => !r.success)).length := by
  refine ⟨?_, ?_, ?_⟩
  · simpa using foldl_filter_sum (fun r => r.items_found.getD 0) g.results 0
  · simpa using foldl_filter_sum (fun r => r.new_items.getD 0) g.results 0
  · simpa using foldl_count_failed g.results 0

/-- The witness group for the aggregation claim: one succeeding and one
failing job, run sequentially. -/
def tasksW8 : List (ScrapingTask × TaskEnv) :=
  [(taskSeqC, envSeqC), (taskSeqA, envSeqA_fail)]

/-- The group result of the witness run. -/
def gW8 : GroupRunResult :=
  match (run_scraping_group groupSeq tasksW8).2 with
  | .ok g => g
  | .error _ => { group_id := 0, tasks_run := 0, results := [] }

/-- Witness for C8 on a concrete completed group run. -/
theorem C8_witness :
    (run_scraping_group groupSeq tasksW8).2 = .ok gW8 ∧
    total_items gW8.results =
      ((gW8.results.filter (fun r => r.success)).map
        (fun r => r.items_found.getD 0)).sum :=
  ⟨rfl, (C8_group_totals groupSeq tasksW8 gW8 rfl).1⟩

/-- A job under test whose routine extracts one record. -/
def taskT9 : ScrapingTask :=
  { id := 9, group := 2, name := "test-job", target_url := "http://t9.example",
    generated_code := "async def scrape_example(stagehand):\n    return [dict(title=1)]",
    data_type := "GENERIC", extraction_schema := [], execution_order := 0,
    is_active := true, test_status := "UNTESTED", last_test_at := none,
    avg_execution_time := none }

/-- Test-run environment: the sandbox succeeds with one extracted record. -/
def envT9 : TaskEnv :=
  { task? := some taskT9, runId := 91, t0 := 0, now := 4,
    ev := .completed 0 "" (.found true (some [recW2]) none), fp := .noFail,
    items := [] }

/-- The number of stored `ScrapedItem` rows after the test run. -/
def testRunItemCount : Option Nat :=
  match test_scraping_task envT9 99 with
  | .ok r => some r.2.1.items.length
  | .error _ => none

/-- Counterexample to C9 as stated: `test_scraping_task` executes the job
in full — starting from an empty store, the test run creates a
`ScrapedItem` record. -/
theorem C9_counterexample :
    envT9.items = [] ∧ testRunItemCount = some 1 := by
  exact ⟨rfl, by decide⟩

/-- C9 (amended): a test run performs exactly the persistent effects of a
normal `run_scraping_task` invocation (Run record, Record
creation/updates), and on top of that rewrites only the job's
`test_status` and `last_test_at`; the job's other columns — in particular
`avg_execution_time` — end up at their pre-run values because the final
save writes the stale pre-run instance. -/
theorem C9_test_run_effects (env : TaskEnv) (task : ScrapingTask)
    (testNow : Nat) (h : env.task? = some task) :
    ∃ st res,
      run_scraping_task
        { env with task? := some { task with test_status := "TESTING" } } =
          .ok (st, res) ∧
      test_scraping_task env testNow =
        .ok ({ task with
                 test_status := if res.success then "PASSED" else "FAILED",
                 last_test_at := some testNow }, st, res) := by
  have hrun : run_scraping_task
      { env with task? := some { task with test_status := "TESTING" } } =
      .ok (execute_task { task with test_status := "TESTING" } env.runId
        env.t0 env.now env.ev env.fp env.items) := by
    simp [run_scraping_task, execute_task_entry]
  refine ⟨_, _, hrun, ?_⟩
  simp only [test_scraping_task, h]
  rw [hrun]
  rfl

/-- Witness environment for C9 (amended): the sandbox reports failure, so
the test ends `FAILED`. -/
def envW9 : TaskEnv :=
  { task? := some taskT9, runId := 92, t0 := 0, now := 3,
    ev := .completed 1 "" (.found false none (some "boom")), fp := .noFail,
    items := [] }

/-- Witness for C9 (amended) at a concrete environment. -/
theorem C9_witness :
    ∃ st res,
      run_scraping_task
        { envW9 with task? := some { taskT9 with test_status := "TESTING" } } =
          .ok (st, res) ∧
      test_scraping_task envW9 77 =
        .ok ({ taskT9 with
                 test_status := if res.success then "PASSED" else "FAILED",
                 last_test_at := some 77 }, st, res) :=
  C9_test_run_effects envW9 taskT9 77 rfl

/-- The record list the dedup loop of `execute_task` sees for a sandbox
event. -/
def extractedData (ev : SandboxEvent) : List (List (String × JValue)) :=
  if (run_in_container ev).success then (run_in_container ev).data.getD []
  else []

/-- Whether an injected fail point actually raises for this event (a
dedup-loop exception only exists while there are records to process). -/
def raisesAt (fp : FailPoint) (ev : SandboxEvent) : Bool :=
  match fp with
  | .noFail => false
  | .dedupRaise k _ => k < (extractedData ev).length
  | _ => true

/-- The exception text a fail point carries. -/
def failMsg : FailPoint → String
  | .noFail => ""
  | .sandboxRaise m => m
  | .dedupRaise _ m => m
  | .runSaveRaise m => m
  | .taskSaveRaise m => m

/-- C10: whenever an exception is raised inside the `try` of
`execute_task` (sandbox step, dedup loop, run save or task save), the
handler records the Run as `FAILED` with the exception text and a
completion timestamp, the task row is left exactly as it was (in
particular `avg_execution_time`), and the returned dict reports the
failure. -/
theorem C10_error_path_frame (task : ScrapingTask) (runId t0 now : Nat)
    (ev : SandboxEvent) (fp : FailPoint) (items : List ScrapedItem)
    (h : raisesAt fp ev = true) :
    (execute_task task runId t0 now ev fp items).1.task = task ∧
    (execute_task task runId t0 now ev fp items).1.run.status = "FAILED" ∧
    (execute_task task runId t0 now ev fp items).1.run.error_message =
      failMsg fp ∧
    (execute_task task runId t0 now ev fp items).1.run.completed_at =
      some now ∧
    (execute_task task runId t0 now ev fp items).2.success = false ∧
    (execute_task task runId t0 now ev fp items).2.error =
      some (failMsg fp) := by
  cases fp with
  | noFail => simp [raisesAt] at h
  | sandboxRaise m => simp [execute_task, execExceptPath, failMsg]
  | dedupRaise k m =>
    have hk : k < (if (run_in_container ev).success then
        ((run_in_container ev).data.getD []) else []).length := by
      simpa [raisesAt, extractedData] using h
    simp [execute_task, hk, execExceptPath, failMsg]
  | runSaveRaise m => simp [execute_task, execExceptPath, completedRun, failMsg]
  | taskSaveRaise m => simp [execute_task, execExceptPath, completedRun, failMsg]

/-- A concrete run-save failure for the C10 witness. -/
def taskW10 : ScrapingTask :=
  { id := 10, group := 2, name := "frame-job",
    target_url := "http://t10.example",
    generated_code := "async def scrape_example(stagehand):\n    return []",
    data_type := "GENERIC", extraction_schema := [], execution_order := 0,
    is_active := true, test_status := "PASSED", last_test_at := some 1,
    avg_execution_time := some 12 }

/-- Witness for C10: a `task_run.save()` failure leaves the task row (and
its `avg_execution_time`) untouched. -/
theorem C10_witness :
    raisesAt (.runSaveRaise "db write failed")
      (.completed 0 "" (.found true none none)) = true ∧
    (execute_task taskW10 101 0 6 (.completed 0 "" (.found true none none))
        (.runSaveRaise "db write failed") []).1.task = taskW10 :=
  ⟨by decide,
   (C10_error_path_frame taskW10 101 0 6
      (.completed 0 "" (.found true none none))
      (.runSaveRaise "db write failed") [] (by decide)).1⟩
